import Mathlib

/-!
Verification development for the script-image-generator repository.

The definitions below are a shallow embedding of the persistence and
image-reference-consistency pipeline of the repository: the Record Store
(src/lib/storage.ts), the Prompt Assembler (buildScenePrompt and
getStyleModifier in src/lib/gemini.ts), the analysis-result ingestion
(ScriptNew.tsx / ScriptDetail.tsx), and the batch generation orchestration
(the Generate page and Characters.tsx). Stateful TypeScript code is modelled
by explicit state passing; JavaScript truthiness on optional strings
(undefined and the empty string are both falsy) is modelled explicitly where
the source relies on it.
-/

namespace ScriptImage

/-- Status values of a Script record (src/types/index.ts). -/
inductive ScriptStatus where
  | draft
  | analyzing
  | ready
  | generating
  | completed
deriving DecidableEq, Repr

/-- Status values of a Scene record (src/types/index.ts). -/
inductive SceneStatus where
  | pending
  | generating
  | completed
  | failed
deriving DecidableEq, Repr

/-- Character appearance fields (src/types/index.ts, interface Appearance).
All fields are optional in the source. -/
structure Appearance where
  age : Option String := none
  gender : Option String := none
  height : Option String := none
  hair : Option String := none
  face : Option String := none
  skinTone : Option String := none
  features : Option (List String) := none
deriving DecidableEq, Repr

/-- Script record (src/types/index.ts, interface Script). -/
structure Script where
  id : String
  title : String
  rawContent : String
  genre : Option String := none
  styleGuide : Option String := none
  status : ScriptStatus
  createdAt : String
  updatedAt : String
deriving DecidableEq, Repr

/-- Character record (src/types/index.ts, interface Character).
referenceImages holds image identifiers (or inline data URLs). -/
structure Character where
  id : String
  scriptId : String
  name : String
  appearance : Appearance
  defaultOutfit : Option String := none
  referenceImages : List String
  selectedImage : Option String := none
  basePrompt : Option String := none
  createdAt : String
  updatedAt : String
deriving DecidableEq, Repr

/-- Scene record (src/types/index.ts, interface Scene). -/
structure Scene where
  id : String
  scriptId : String
  sceneNumber : Int
  title : Option String := none
  location : Option String := none
  timeOfDay : Option String := none
  originalText : String
  visualDescription : Option String := none
  generatedPrompt : Option String := none
  userEditedPrompt : Option String := none
  characterIds : List String
  generatedImages : List String
  selectedImage : Option String := none
  status : SceneStatus
  createdAt : String
  updatedAt : String
deriving DecidableEq, Repr

/-! ## JavaScript truthiness helpers

The source tests optional strings with plain truthiness: `undefined` and the
empty string are both falsy. -/

/-- JS truthiness of an optional string value: `undefined` and `""` are falsy. -/
def strTruthy : Option String → Bool
  | none => false
  | some s => s != ""

/-- The JS idiom `x || d` on an optional string: falls back to `d` when the
value is `undefined` or the empty string. -/
def jsOr : Option String → String → String
  | none, d => d
  | some s, d => if s = "" then d else s

/-! ## Prompt Assembler (src/lib/gemini.ts) -/

/-- Image style options (src/lib/gemini.ts, type ImageStyle). -/
inductive ImageStyle where
  | realistic
  | anime
  | watercolor
  | cinematic
  | comic
deriving DecidableEq, Repr

/-- Style-specific prompt modifier (src/lib/gemini.ts, getStyleModifier).
The enumeration is total, so the default branch of the source switch is
unreachable. -/
def getStyleModifier : ImageStyle → String
  | .realistic => "Photorealistic, high-resolution photograph, natural lighting, realistic skin texture, shot on professional camera, 8K quality"
  | .anime => "Japanese anime style, vibrant colors, clean line art, expressive eyes, detailed background, Studio Ghibli quality"
  | .cinematic => "Cinematic movie still, dramatic lighting, shallow depth of field, anamorphic lens flare, film grain, Hollywood production quality"
  | .watercolor => "Soft watercolor painting, delicate brush strokes, gentle color blending, artistic and dreamy atmosphere"
  | .comic => "Comic book style, bold outlines, dynamic composition, graphic novel aesthetic, cel shading"

/-- The scene argument of buildScenePrompt (the structural parameter type of
the source function). -/
structure PromptScene where
  location : Option String := none
  timeOfDay : Option String := none
  visualDescription : Option String := none
  userEditedPrompt : Option String := none
deriving DecidableEq, Repr

/-- The character argument of buildScenePrompt (the structural parameter type
of the source function). -/
structure PromptCharacter where
  name : String
  appearance : Appearance
  defaultOutfit : Option String := none
deriving DecidableEq, Repr

/-- The per-character description line of buildScenePrompt: the appearance
fields and the spread features are collected into one array, filtered by JS
truthiness (dropping undefined and empty entries) and joined by commas. -/
def characterLine (char : PromptCharacter) : String :=
  let app := char.appearance
  let features := String.intercalate ", "
    ((([app.age, app.gender, app.height, app.hair, app.face, app.skinTone].filterMap id)
      ++ app.features.getD []).filter (fun s => s != ""))
  "- " ++ char.name ++ ": " ++ features ++ ". Outfit: " ++ jsOr char.defaultOutfit "casual"

/-- Scene prompt builder (src/lib/gemini.ts, buildScenePrompt). The source
returns userEditedPrompt when it is truthy (set and non-empty); otherwise it
renders the template literal, with `||` fallbacks for location, time and
description. -/
def buildScenePrompt (scene : PromptScene) (characters : List PromptCharacter)
    (style : ImageStyle) : String :=
  if strTruthy scene.userEditedPrompt then scene.userEditedPrompt.getD "" else
  let styleModifier := getStyleModifier style
  let characterDescriptions := String.intercalate "\n" (characters.map characterLine)
  styleModifier
    ++ "\n\nSCENE:\n- Location: "
    ++ jsOr scene.location "unspecified"
    ++ "\n- Time: "
    ++ jsOr scene.timeOfDay "day"
    ++ "\n\nCHARACTERS (match the reference images exactly):\n"
    ++ characterDescriptions
    ++ "\n\nSCENE DESCRIPTION:\n"
    ++ jsOr scene.visualDescription "No description"
    ++ "\n\nCRITICAL REQUIREMENTS:\n- Characters MUST match the provided reference images exactly\n- Maintain consistent facial features, hair style, and body proportions\n- Follow the specified art style strictly\n- High quality, professional composition"

/-! ### Spec-side description of the generated prompt (for the refinement
claim about the prompt structure). Each section follows the wording of the
specification: a style-specific modifier phrase, a scene section with
location and time fallbacks, a per-character section with the fixed field
order, a scene-description section, and a fixed closing block. -/

/-- Spec wording: scene section listing location (falling back to the literal
"unspecified") and time (falling back to the literal "day"). -/
def specSceneSection (scene : PromptScene) : String :=
  "\n\nSCENE:\n- Location: " ++ jsOr scene.location "unspecified"
    ++ "\n- Time: " ++ jsOr scene.timeOfDay "day"

/-- Spec wording: the non-empty appearance fields joined by commas in the
fixed order age, gender, height, hair, face, skinTone, then each free-form
feature, skipping any empty field. -/
def specCharacterFields (app : Appearance) : String :=
  String.intercalate ", "
    ((([app.age, app.gender, app.height, app.hair, app.face, app.skinTone].filterMap id)
      ++ app.features.getD []).filter (fun s => s != ""))

/-- Spec wording: the per-character section renders one line per character
with its appearance fields plus outfit, defaulting to "casual" if unset. -/
def specCharacterSection (characters : List PromptCharacter) : String :=
  "\n\nCHARACTERS (match the reference images exactly):\n"
    ++ String.intercalate "\n"
        (characters.map (fun c =>
          "- " ++ c.name ++ ": " ++ specCharacterFields c.appearance
            ++ ". Outfit: " ++ jsOr c.defaultOutfit "casual"))

/-- Spec wording: scene-description section, falling back to the literal
"No description". -/
def specDescriptionSection (scene : PromptScene) : String :=
  "\n\nSCENE DESCRIPTION:\n" ++ jsOr scene.visualDescription "No description"

/-- Spec wording: fixed closing block of consistency and quality directives. -/
def specClosingBlock : String :=
  "\n\nCRITICAL REQUIREMENTS:\n- Characters MUST match the provided reference images exactly\n- Maintain consistent facial features, hair style, and body proportions\n- Follow the specified art style strictly\n- High quality, professional composition"

/-- Spec wording: the full generated prompt is the concatenation of the five
sections. -/
def specGeneratedPrompt (scene : PromptScene) (characters : List PromptCharacter)
    (style : ImageStyle) : String :=
  getStyleModifier style ++ specSceneSection scene ++ specCharacterSection characters
    ++ specDescriptionSection scene ++ specClosingBlock

/-- A scene whose userEditedPrompt is present but holds the empty string. -/
def emptyOverrideScene : PromptScene :=
  { userEditedPrompt := some "" }

/-- Claim C4, counterexample: buildScenePrompt does not return the user
override verbatim for every scene whose userEditedPrompt field is set. The
source tests the field with JS truthiness, so a scene whose userEditedPrompt
is set to the empty string falls through to the generated template, and the
returned string differs from the stored override. -/
theorem buildScenePrompt_empty_override_cex :
    emptyOverrideScene.userEditedPrompt = some ""
      ∧ buildScenePrompt emptyOverrideScene [] ImageStyle.realistic ≠ "" := by
  refine ⟨rfl, ?_⟩
  decide

/-- Claim C4 (amended): buildScenePrompt is a pure function of its input, and
for every scene whose userEditedPrompt is set to a non-empty string it
returns exactly that string, regardless of all other fields of the scene, of
the characters, and of the style. -/
theorem buildScenePrompt_override (scene : PromptScene)
    (characters : List PromptCharacter) (style : ImageStyle) (p : String)
    (hset : scene.userEditedPrompt = some p) (hne : p ≠ "") :
    buildScenePrompt scene characters style = p := by
  simp [buildScenePrompt, strTruthy, hset, hne]

/-- Witness for the amended claim C4 at a concrete input. -/
theorem buildScenePrompt_override_witness :
    buildScenePrompt { userEditedPrompt := some "A castle at dawn" } []
      ImageStyle.anime = "A castle at dawn" :=
  buildScenePrompt_override _ [] _ "A castle at dawn" rfl (by decide)

/-- The per-character line of the source template agrees pointwise with the
spec wording of the character section. -/
theorem characterLine_eq (c : PromptCharacter) :
    characterLine c
      = "- " ++ c.name ++ ": " ++ specCharacterFields c.appearance
          ++ ". Outfit: " ++ jsOr c.defaultOutfit "casual" := by
  simp [characterLine, specCharacterFields, String.append_assoc]

/-- Function-level form of characterLine_eq, usable under List.map. -/
theorem characterLine_fun :
    characterLine
      = fun c => "- " ++ c.name ++ ": " ++ specCharacterFields c.appearance
          ++ ". Outfit: " ++ jsOr c.defaultOutfit "casual" :=
  funext characterLine_eq

/-- Claim C5: for every scene with userEditedPrompt unset, buildScenePrompt
returns the concatenation of the style-specific modifier phrase, the scene
section with the location and time fallbacks, the per-character section with
the fixed field order (skipping empty fields, outfit defaulting to casual),
the scene-description section with its fallback, and the fixed closing block
of consistency and quality directives. -/
theorem buildScenePrompt_generated_structure (scene : PromptScene)
    (characters : List PromptCharacter) (style : ImageStyle)
    (h : scene.userEditedPrompt = none) :
    buildScenePrompt scene characters style
      = specGeneratedPrompt scene characters style := by
  simp [buildScenePrompt, strTruthy, h, specGeneratedPrompt, specSceneSection,
    specCharacterSection, specDescriptionSection, specClosingBlock,
    specCharacterFields, characterLine_fun, String.append_assoc]

/-- Witness for claim C5 at a concrete input. -/
theorem buildScenePrompt_generated_structure_witness :
    buildScenePrompt { location := some "cafe" }
        [{ name := "Anna", appearance := { age := some "20s" } }]
        ImageStyle.realistic
      = specGeneratedPrompt { location := some "cafe" }
          [{ name := "Anna", appearance := { age := some "20s" } }]
          ImageStyle.realistic :=
  buildScenePrompt_generated_structure _ _ _ rfl

/-! ## Character reference-image operations (src/pages/Characters.tsx)

handleImageUpload, handleGenerateCharacterImages, handleRemoveImage and the
image-selection click handler mutate one Character record through
updateCharacter. They are modelled as functions on the Character record; the
identifiers produced by the Blob Store for the stored payloads are passed in
as lists of strings, and updateCharacter refreshing updatedAt is modelled by
the now parameter. -/

/-- The JS idiom `arr[0] || undefined` on a string array: the first element,
or undefined when the array is empty or its first element is falsy. -/
def jsFirstOrNone : List String → Option String
  | [] => none
  | x :: _ => if x = "" then none else some x

/-- One processed upload file: the new image identifier is appended to
referenceImages, and it becomes the selected image when no image was selected
before (`if (!character.selectedImage)`). -/
def applyUploadOne (now : String) (c : Character) (imageId : String) : Character :=
  { c with
      referenceImages := c.referenceImages ++ [imageId],
      selectedImage := if strTruthy c.selectedImage then c.selectedImage else some imageId,
      updatedAt := now }

/-- The INTENDED accumulation of a manual upload (Characters.tsx,
handleImageUpload): the chosen files are sliced to the remaining slots (8
minus the current count) and each accepted file is stored and appended to
the record. The source does not actually accumulate: every FileReader.onload
closure captures the character prop fixed before the upload, so the per-file
record writes overwrite one another and only the last accepted id survives;
that persisted behaviour is handleImageUploadActual below. Every single
record write the source performs has the shape of one applyUploadOne step
from the pre-upload snapshot, so invariants preserved by every applyUploadOne
step hold of the persisted record under either reading. -/
def handleImageUpload (c : Character) (newIds : List String) (now : String) : Character :=
  let remainingSlots := 8 - c.referenceImages.length
  (newIds.take remainingSlots).foldl (applyUploadOne now) c

/-- The persisted outcome of one multi-file upload as the source actually
behaves (Characters.tsx, handleImageUpload): the chosen files are sliced to
the remaining slots and each accepted file has its payload stored, but each
FileReader.onload writes referenceImages as the stale pre-upload list plus
its own single id, and updateCharacter replaces the array, so the last write
wins and at most one new image id survives in the record per upload event
(the other stored payloads are left orphaned in the Blob Store). -/
def handleImageUploadActual (c : Character) (newIds : List String) (now : String) : Character :=
  let accepted := newIds.take (8 - c.referenceImages.length)
  match accepted.getLast? with
  | none => c
  | some lastId => applyUploadOne now c lastId

/-- AI portrait generation for one Character (Characters.tsx,
handleGenerateCharacterImages): newImageIds are the identifiers of the
successfully generated portraits, in attempt order. With no success the
handler raises a batch failure; otherwise the ids are appended with the
result sliced to 8 entries, and the first new image is selected when no image
was selected before. -/
def handleGenerateCharacterImages (c : Character) (newImageIds : List String)
    (now : String) : Character × Option String :=
  match newImageIds with
  | [] => (c, some "이미지 생성에 모두 실패했습니다.")
  | first :: rest =>
      ({ c with
          referenceImages := (c.referenceImages ++ (first :: rest)).take 8,
          selectedImage := if strTruthy c.selectedImage then c.selectedImage else some first,
          updatedAt := now }, none)

/-- Removal of the reference image at a position (Characters.tsx,
handleRemoveImage): the image is dropped, and when it was the selected image
the selection moves to the new first element (`newImages[0] || undefined`).
The UI only invokes the handler with an index of an existing image; an
out-of-range index is modelled as leaving the record unchanged. -/
def handleRemoveImage (c : Character) (index : Nat) (now : String) : Character :=
  match c.referenceImages.get? index with
  | none => c
  | some imageId =>
      let newImages := c.referenceImages.eraseIdx index
      { c with
          referenceImages := newImages,
          selectedImage :=
            if c.selectedImage = some imageId then jsFirstOrNone newImages
            else c.selectedImage,
          updatedAt := now }

/-- Clicking a gallery image (Characters.tsx, onSelectImage): the clicked
image identifier becomes the selected image. -/
def handleSelectImage (c : Character) (imageId : String) (now : String) : Character :=
  { c with selectedImage := some imageId, updatedAt := now }

/-- The selection invariant of a Character: selectedImage is either undefined
or an element of referenceImages. -/
def selectedImageValid (c : Character) : Prop :=
  match c.selectedImage with
  | none => True
  | some s => s ∈ c.referenceImages

instance (c : Character) : Decidable (selectedImageValid c) := by
  unfold selectedImageValid
  cases c.selectedImage <;> infer_instance

/-- A concrete Character with 7 reference images. -/
def witnessChar7 : Character :=
  { id := "c1", scriptId := "s1", name := "Anna", appearance := {},
    referenceImages := ["i1", "i2", "i3", "i4", "i5", "i6", "i7"],
    selectedImage := some "i1", createdAt := "t0", updatedAt := "t0" }

/-- A concrete Character with 5 reference images. -/
def witnessChar5 : Character :=
  { id := "c5", scriptId := "s1", name := "Dana", appearance := {},
    referenceImages := ["i1", "i2", "i3", "i4", "i5"],
    selectedImage := some "i1", createdAt := "t0", updatedAt := "t0" }

/-- Claim C2, code-bug demonstration. The repository README documents
uploading reference images up to the cap of 8, the handler slices the chosen
files to the remaining slots and stores every accepted payload, so the
evident intent is to accept min(files, 8 - current) entries; but the
stale-snapshot record writes keep only the last accepted id. At 5 existing
images and 4 uploaded files the persisted record ends with 6 reference
images where the claim prescribes accepting 3 entries and ending at 8. The
cap of 8 itself is never exceeded, and the claim scenario of 7 existing
images plus 3 uploaded files still ends at exactly 8, because there only one
file passes the slice. -/
theorem claim_uploadCap_bug :
    (handleImageUploadActual witnessChar5 ["n1", "n2", "n3", "n4"] "t1").referenceImages
        = ["i1", "i2", "i3", "i4", "i5", "n3"]
    ∧ (handleImageUploadActual witnessChar5 ["n1", "n2", "n3", "n4"] "t1").referenceImages.length
        ≠ 8
    ∧ (handleImageUploadActual witnessChar7 ["n1", "n2", "n3"] "t1").referenceImages.length
        = 8 := by
  refine ⟨by decide, by decide, by decide⟩

/-- An upload step preserves the selection invariant. -/
theorem applyUploadOne_valid (now : String) (c : Character) (i : String)
    (h : selectedImageValid c) : selectedImageValid (applyUploadOne now c i) := by
  unfold selectedImageValid applyUploadOne at *
  cases hs : c.selectedImage with
  | none => simp [strTruthy, hs]
  | some s =>
      rw [hs] at h
      by_cases he : s = ""
      · subst he
        simp [strTruthy, hs]
      · simp [strTruthy, hs, he]
        exact Or.inl h

/-- Folding upload steps preserves the selection invariant. -/
theorem foldl_applyUploadOne_valid (now : String) (ids : List String) (c : Character)
    (h : selectedImageValid c) : selectedImageValid (ids.foldl (applyUploadOne now) c) := by
  induction ids generalizing c with
  | nil => exact h
  | cons i rest ih => exact ih _ (applyUploadOne_valid now c i h)

/-- A manual upload preserves the selection invariant. -/
theorem handleImageUpload_valid (c : Character) (ids : List String) (now : String)
    (h : selectedImageValid c) : selectedImageValid (handleImageUpload c ids now) :=
  foldl_applyUploadOne_valid now _ c h

/-- An AI portrait generation batch preserves the selection invariant. The
generation button is disabled at 8 reference images and the generate-all
variant targets only characters with fewer than 8, so the handler only runs
below the cap. -/
theorem handleGenerateCharacterImages_valid (c : Character) (ids : List String)
    (now : String) (h : selectedImageValid c)
    (hlen : c.referenceImages.length < 8) :
    selectedImageValid (handleGenerateCharacterImages c ids now).1 := by
  match ids with
  | [] => exact h
  | first :: rest =>
      have htake : (c.referenceImages ++ (first :: rest)).take 8
          = c.referenceImages ++ (first :: rest).take (8 - c.referenceImages.length) := by
        rw [List.take_append_eq_append_take, List.take_of_length_le (Nat.le_of_lt hlen)]
      unfold handleGenerateCharacterImages selectedImageValid
      cases hs : c.selectedImage with
      | none =>
          simp only [strTruthy, hs, if_neg, Bool.false_eq_true, not_false_eq_true, htake]
          obtain ⟨k, hk⟩ : ∃ k, 8 - c.referenceImages.length = k + 1 :=
            ⟨8 - c.referenceImages.length - 1, by omega⟩
          rw [hk, List.take_succ_cons]
          exact List.mem_append_right _ (List.mem_cons_self _ _)
      | some s =>
          by_cases he : s = ""
          · subst he
            simp only [strTruthy, hs, bne_self_eq_false, Bool.false_eq_true, if_neg,
              not_false_eq_true, htake]
            obtain ⟨k, hk⟩ : ∃ k, 8 - c.referenceImages.length = k + 1 :=
              ⟨8 - c.referenceImages.length - 1, by omega⟩
            rw [hk, List.take_succ_cons]
            exact List.mem_append_right _ (List.mem_cons_self _ _)
          · have hmem : s ∈ c.referenceImages := by
              unfold selectedImageValid at h
              rw [hs] at h
              exact h
            simp only [strTruthy, hs, bne_iff_ne, ne_eq, he, not_false_eq_true, if_pos, htake]
            exact List.mem_append_left _ hmem

/-- An element of a list other than the entry at the erased position stays in
the list after eraseIdx. -/
theorem mem_eraseIdx_of_get?_ne (l : List String) (i : Nat) (x : String)
    (hx : x ∈ l) (hne : l.get? i ≠ some x) : x ∈ l.eraseIdx i := by
  induction l generalizing i with
  | nil => cases hx
  | cons a rest ih =>
      cases i with
      | zero =>
          rcases List.mem_cons.mp hx with h | h
          · exact absurd (show (a :: rest).get? 0 = some x by rw [h]; rfl) hne
          · exact h
      | succ j =>
          rcases List.mem_cons.mp hx with h | h
          · rw [h]
            exact List.mem_cons_self _ _
          · exact List.mem_cons_of_mem _ (ih j h hne)

/-- Removal preserves the selection invariant. -/
theorem handleRemoveImage_valid (c : Character) (index : Nat) (now : String)
    (h : selectedImageValid c) : selectedImageValid (handleRemoveImage c index now) := by
  unfold handleRemoveImage
  cases hget : c.referenceImages.get? index with
  | none => exact h
  | some imageId =>
      unfold selectedImageValid
      by_cases hsel : c.selectedImage = some imageId
      · simp only [hsel, if_pos]
        cases herase : c.referenceImages.eraseIdx index with
        | nil => simp [jsFirstOrNone, herase]
        | cons y ys =>
            by_cases hy : y = ""
            · simp [jsFirstOrNone, herase, hy]
            · simp only [jsFirstOrNone, herase, if_neg hy]
              exact List.mem_cons_self _ _
      · simp only [if_neg hsel]
        cases hs : c.selectedImage with
        | none => trivial
        | some s =>
            have hmem : s ∈ c.referenceImages := by
              unfold selectedImageValid at h
              rw [hs] at h
              exact h
            apply mem_eraseIdx_of_get?_ne _ _ _ hmem
            rw [hget]
            intro hc
            apply hsel
            rw [hs]
            injection hc with hc'
            rw [hc']

/-- Removing the selected image resets the selection to the first remaining
image, or to undefined when none remain (image identifiers are non-empty). -/
theorem handleRemoveImage_reset (c : Character) (index : Nat) (now : String)
    (imageId : String) (hget : c.referenceImages.get? index = some imageId)
    (hsel : c.selectedImage = some imageId)
    (hemp : ∀ s ∈ c.referenceImages, s ≠ "") :
    (handleRemoveImage c index now).selectedImage
      = (c.referenceImages.eraseIdx index).head? := by
  unfold handleRemoveImage
  rw [hget]
  simp only [hsel, if_pos]
  cases herase : c.referenceImages.eraseIdx index with
  | nil => rfl
  | cons y ys =>
      have hy : y ∈ c.referenceImages := by
        have hmem : y ∈ c.referenceImages.eraseIdx index := by
          rw [herase]
          exact List.mem_cons_self _ _
        exact List.eraseIdx_subset _ _ hmem
      simp [jsFirstOrNone, hemp y hy]

/-- Claim C3: after every mutating operation on a Character (manual upload,
AI portrait generation below the 8-image cap, image removal, image
selection), selectedImage is either undefined or an element of
referenceImages; and removing the currently selected reference image resets
selectedImage to the new first element of referenceImages, or to undefined if
none remain. -/
theorem claim_selectedImage_invariant (c : Character) (uploadIds genIds : List String)
    (index : Nat) (img : String) (now : String) (h : selectedImageValid c) :
    selectedImageValid (handleImageUpload c uploadIds now)
    ∧ (c.referenceImages.length < 8 →
        selectedImageValid (handleGenerateCharacterImages c genIds now).1)
    ∧ selectedImageValid (handleRemoveImage c index now)
    ∧ (img ∈ c.referenceImages → selectedImageValid (handleSelectImage c img now))
    ∧ (∀ imageId, c.referenceImages.get? index = some imageId →
        c.selectedImage = some imageId → (∀ s ∈ c.referenceImages, s ≠ "") →
        (handleRemoveImage c index now).selectedImage
          = (c.referenceImages.eraseIdx index).head?) := by
  refine ⟨handleImageUpload_valid c uploadIds now h,
    fun hlen => handleGenerateCharacterImages_valid c genIds now h hlen,
    handleRemoveImage_valid c index now h,
    fun hm => ?_,
    fun imageId hget hsel hemp => handleRemoveImage_reset c index now imageId hget hsel hemp⟩
  unfold selectedImageValid handleSelectImage
  exact hm

/-- A concrete Character with two reference images, the first selected. -/
def witnessChar2 : Character :=
  { id := "c2", scriptId := "s1", name := "Mina", appearance := {},
    referenceImages := ["a", "b"], selectedImage := some "a",
    createdAt := "t0", updatedAt := "t0" }

/-- Witness for claim C3 at a concrete input: removing the selected first
image keeps the invariant and moves the selection to the new first image. -/
theorem claim_selectedImage_invariant_witness :
    selectedImageValid (handleRemoveImage witnessChar2 0 "t1")
    ∧ (handleRemoveImage witnessChar2 0 "t1").selectedImage
        = (witnessChar2.referenceImages.eraseIdx 0).head? := by
  have h := claim_selectedImage_invariant witnessChar2 ["u1"] ["g1"] 0 "b" "t1" (by decide)
  exact ⟨h.2.2.1, h.2.2.2.2 "a" (by decide) (by decide) (by decide)⟩

/-! ## Record Store (src/lib/storage.ts)

The Record Store keeps the three collections as JSON-serialized arrays in
window.localStorage under a fixed key namespace. localStorage is modelled as
an association list from keys to JSON values, newest entry first;
JSON.stringify and JSON.parse of the record arrays are modelled by the
explicit codecs below (stringify writes each record as an object holding the
record fields; an optional field that is absent and one that is null are
interchangeable for the round trip). -/

/-- JSON values. -/
inductive Json where
  | null : Json
  | bool : Bool → Json
  | num : Int → Json
  | str : String → Json
  | arr : List Json → Json
  | obj : List (String × Json) → Json

/-- First binding of a key in a JSON object field list. -/
def jsonField : List (String × Json) → String → Option Json
  | [], _ => none
  | (k, v) :: rest, key => if k = key then some v else jsonField rest key

/-- Field access on a JSON value. -/
def Json.getField : Json → String → Option Json
  | .obj fields, key => jsonField fields key
  | _, _ => none

/-- Encoding of an optional string field. -/
def encOptStr : Option String → Json
  | none => Json.null
  | some s => Json.str s

/-- Decoding of a required string field. -/
def decStr : Option Json → Option String
  | some (Json.str s) => some s
  | _ => none

/-- Decoding of an optional string field. -/
def decOptStr : Option Json → Option (Option String)
  | some (Json.str s) => some (some s)
  | some Json.null => some none
  | none => some none
  | _ => none

/-- Decoding of a required integer field. -/
def decInt : Option Json → Option Int
  | some (Json.num n) => some n
  | _ => none

/-- Decoding of a list of JSON strings. -/
def decodeStringElems : List Json → Option (List String)
  | [] => some []
  | Json.str s :: rest => (decodeStringElems rest).map (s :: ·)
  | _ => none

/-- Encoding of a string-array field. -/
def encStrList (l : List String) : Json := Json.arr (l.map Json.str)

/-- Decoding of a required string-array field. -/
def decStrList : Option Json → Option (List String)
  | some (Json.arr xs) => decodeStringElems xs
  | _ => none

/-- Encoding of an optional string-array field. -/
def encOptStrList : Option (List String) → Json
  | none => Json.null
  | some l => Json.arr (l.map Json.str)

/-- Decoding of an optional string-array field. -/
def decOptStrList : Option Json → Option (Option (List String))
  | some (Json.arr xs) => (decodeStringElems xs).map some
  | some Json.null => some none
  | none => some none
  | _ => none

/-- Script status serialization (the status union is stored as its string
literal). -/
def scriptStatusToString : ScriptStatus → String
  | .draft => "draft"
  | .analyzing => "analyzing"
  | .ready => "ready"
  | .generating => "generating"
  | .completed => "completed"

/-- Script status parsing. -/
def scriptStatusOfString (s : String) : Option ScriptStatus :=
  if s = "draft" then some .draft
  else if s = "analyzing" then some .analyzing
  else if s = "ready" then some .ready
  else if s = "generating" then some .generating
  else if s = "completed" then some .completed
  else none

/-- Decoding of a Script status field. -/
def decScriptStatus : Option Json → Option ScriptStatus
  | some (Json.str s) => scriptStatusOfString s
  | _ => none

/-- Scene status serialization. -/
def sceneStatusToString : SceneStatus → String
  | .pending => "pending"
  | .generating => "generating"
  | .completed => "completed"
  | .failed => "failed"

/-- Scene status parsing. -/
def sceneStatusOfString (s : String) : Option SceneStatus :=
  if s = "pending" then some .pending
  else if s = "generating" then some .generating
  else if s = "completed" then some .completed
  else if s = "failed" then some .failed
  else none

/-- Decoding of a Scene status field. -/
def decSceneStatus : Option Json → Option SceneStatus
  | some (Json.str s) => sceneStatusOfString s
  | _ => none

/-- JSON encoding of an Appearance record. -/
def encodeAppearance (a : Appearance) : Json :=
  Json.obj [("age", encOptStr a.age), ("gender", encOptStr a.gender),
    ("height", encOptStr a.height), ("hair", encOptStr a.hair),
    ("face", encOptStr a.face), ("skinTone", encOptStr a.skinTone),
    ("features", encOptStrList a.features)]

/-- JSON decoding of an Appearance record. -/
def decodeAppearance (j : Json) : Option Appearance := do
  let age ← decOptStr (j.getField "age")
  let gender ← decOptStr (j.getField "gender")
  let height ← decOptStr (j.getField "height")
  let hair ← decOptStr (j.getField "hair")
  let face ← decOptStr (j.getField "face")
  let skinTone ← decOptStr (j.getField "skinTone")
  let features ← decOptStrList (j.getField "features")
  pure { age, gender, height, hair, face, skinTone, features }

/-- JSON encoding of a Script record. -/
def encodeScript (s : Script) : Json :=
  Json.obj [("id", Json.str s.id), ("title", Json.str s.title),
    ("rawContent", Json.str s.rawContent), ("genre", encOptStr s.genre),
    ("styleGuide", encOptStr s.styleGuide),
    ("status", Json.str (scriptStatusToString s.status)),
    ("createdAt", Json.str s.createdAt), ("updatedAt", Json.str s.updatedAt)]

/-- JSON decoding of a Script record. -/
def decodeScript (j : Json) : Option Script := do
  let id ← decStr (j.getField "id")
  let title ← decStr (j.getField "title")
  let rawContent ← decStr (j.getField "rawContent")
  let genre ← decOptStr (j.getField "genre")
  let styleGuide ← decOptStr (j.getField "styleGuide")
  let status ← decScriptStatus (j.getField "status")
  let createdAt ← decStr (j.getField "createdAt")
  let updatedAt ← decStr (j.getField "updatedAt")
  pure { id, title, rawContent, genre, styleGuide, status, createdAt, updatedAt }

/-- JSON encoding of a Character record. -/
def encodeCharacter (c : Character) : Json :=
  Json.obj [("id", Json.str c.id), ("scriptId", Json.str c.scriptId),
    ("name", Json.str c.name), ("appearance", encodeAppearance c.appearance),
    ("defaultOutfit", encOptStr c.defaultOutfit),
    ("referenceImages", encStrList c.referenceImages),
    ("selectedImage", encOptStr c.selectedImage),
    ("basePrompt", encOptStr c.basePrompt),
    ("createdAt", Json.str c.createdAt), ("updatedAt", Json.str c.updatedAt)]

/-- JSON decoding of a Character record. -/
def decodeCharacter (j : Json) : Option Character := do
  let id ← decStr (j.getField "id")
  let scriptId ← decStr (j.getField "scriptId")
  let name ← decStr (j.getField "name")
  let appearance ← (j.getField "appearance").bind decodeAppearance
  let defaultOutfit ← decOptStr (j.getField "defaultOutfit")
  let referenceImages ← decStrList (j.getField "referenceImages")
  let selectedImage ← decOptStr (j.getField "selectedImage")
  let basePrompt ← decOptStr (j.getField "basePrompt")
  let createdAt ← decStr (j.getField "createdAt")
  let updatedAt ← decStr (j.getField "updatedAt")
  pure { id, scriptId, name, appearance, defaultOutfit, referenceImages,
         selectedImage, basePrompt, createdAt, updatedAt }

/-- JSON encoding of a Scene record. -/
def encodeScene (s : Scene) : Json :=
  Json.obj [("id", Json.str s.id), ("scriptId", Json.str s.scriptId),
    ("sceneNumber", Json.num s.sceneNumber), ("title", encOptStr s.title),
    ("location", encOptStr s.location), ("timeOfDay", encOptStr s.timeOfDay),
    ("originalText", Json.str s.originalText),
    ("visualDescription", encOptStr s.visualDescription),
    ("generatedPrompt", encOptStr s.generatedPrompt),
    ("userEditedPrompt", encOptStr s.userEditedPrompt),
    ("characterIds", encStrList s.characterIds),
    ("generatedImages", encStrList s.generatedImages),
    ("selectedImage", encOptStr s.selectedImage),
    ("status", Json.str (sceneStatusToString s.status)),
    ("createdAt", Json.str s.createdAt), ("updatedAt", Json.str s.updatedAt)]

/-- JSON decoding of a Scene record. -/
def decodeScene (j : Json) : Option Scene := do
  let id ← decStr (j.getField "id")
  let scriptId ← decStr (j.getField "scriptId")
  let sceneNumber ← decInt (j.getField "sceneNumber")
  let title ← decOptStr (j.getField "title")
  let location ← decOptStr (j.getField "location")
  let timeOfDay ← decOptStr (j.getField "timeOfDay")
  let originalText ← decStr (j.getField "originalText")
  let visualDescription ← decOptStr (j.getField "visualDescription")
  let generatedPrompt ← decOptStr (j.getField "generatedPrompt")
  let userEditedPrompt ← decOptStr (j.getField "userEditedPrompt")
  let characterIds ← decStrList (j.getField "characterIds")
  let generatedImages ← decStrList (j.getField "generatedImages")
  let selectedImage ← decOptStr (j.getField "selectedImage")
  let status ← decSceneStatus (j.getField "status")
  let createdAt ← decStr (j.getField "createdAt")
  let updatedAt ← decStr (j.getField "updatedAt")
  pure { id, scriptId, sceneNumber, title, location, timeOfDay, originalText,
         visualDescription, generatedPrompt, userEditedPrompt, characterIds,
         generatedImages, selectedImage, status, createdAt, updatedAt }

/-- Element-wise decoding of a JSON array body. -/
def decodeElems {α : Type} (f : Json → Option α) : List Json → Option (List α)
  | [] => some []
  | j :: rest => do
      let x ← f j
      let xs ← decodeElems f rest
      pure (x :: xs)

/-- Decoding of a JSON array of records. -/
def decodeArray {α : Type} (f : Json → Option α) : Json → Option (List α)
  | Json.arr xs => decodeElems f xs
  | _ => none

theorem decOptStr_enc (o : Option String) : decOptStr (some (encOptStr o)) = some o := by
  cases o <;> rfl

theorem decodeStringElems_enc (l : List String) :
    decodeStringElems (l.map Json.str) = some l := by
  induction l with
  | nil => rfl
  | cons s rest ih => simp [decodeStringElems, ih]

theorem decStrList_enc (l : List String) :
    decStrList (some (encStrList l)) = some l := by
  simp [decStrList, encStrList, decodeStringElems_enc]

theorem decOptStrList_enc (o : Option (List String)) :
    decOptStrList (some (encOptStrList o)) = some o := by
  cases o with
  | none => rfl
  | some l => simp [encOptStrList, decOptStrList, decodeStringElems_enc]

theorem scriptStatusOfString_toString (st : ScriptStatus) :
    scriptStatusOfString (scriptStatusToString st) = some st := by
  cases st <;> rfl

theorem sceneStatusOfString_toString (st : SceneStatus) :
    sceneStatusOfString (sceneStatusToString st) = some st := by
  cases st <;> rfl

/-- Appearance records survive the JSON round trip. -/
theorem decodeAppearance_enc (a : Appearance) :
    decodeAppearance (encodeAppearance a) = some a := by
  simp [decodeAppearance, encodeAppearance, Json.getField, jsonField,
    decOptStr_enc, decOptStrList_enc]

/-- Script records survive the JSON round trip. -/
theorem decodeScript_enc (s : Script) : decodeScript (encodeScript s) = some s := by
  simp [decodeScript, encodeScript, Json.getField, jsonField, decStr,
    decOptStr_enc, decScriptStatus, scriptStatusOfString_toString]

/-- Character records survive the JSON round trip. -/
theorem decodeCharacter_enc (c : Character) :
    decodeCharacter (encodeCharacter c) = some c := by
  simp [decodeCharacter, encodeCharacter, Json.getField, jsonField, decStr,
    decOptStr_enc, decodeAppearance_enc, decStrList_enc]

/-- Scene records survive the JSON round trip. -/
theorem decodeScene_enc (s : Scene) : decodeScene (encodeScene s) = some s := by
  simp [decodeScene, encodeScene, Json.getField, jsonField, decStr, decInt,
    decOptStr_enc, decStrList_enc, decSceneStatus, sceneStatusOfString_toString]

/-- Arrays of records survive the JSON round trip element-wise. -/
theorem decodeElems_map {α : Type} (f : Json → Option α) (enc : α → Json)
    (hf : ∀ x, f (enc x) = some x) (l : List α) :
    decodeElems f (l.map enc) = some l := by
  induction l with
  | nil => rfl
  | cons x rest ih => simp [decodeElems, hf, ih]

/-- The localStorage model: keys mapped to stored JSON values, newest entry
first (setItem shadows older entries for the same key). -/
abbrev Storage := List (String × Json)

/-- localStorage.setItem. -/
def setItem (st : Storage) (key : String) (value : Json) : Storage :=
  (key, value) :: st

/-- localStorage.getItem. -/
def getItem : Storage → String → Option Json
  | [], _ => none
  | (k, v) :: rest, key => if k = key then some v else getItem rest key

theorem getItem_setItem_self (st : Storage) (key : String) (v : Json) :
    getItem (setItem st key v) key = some v := by
  simp [getItem, setItem]

theorem getItem_setItem_ne (st : Storage) (k k2 : String) (v : Json) (h : k ≠ k2) :
    getItem (setItem st k v) k2 = getItem st k2 := by
  simp [getItem, setItem, h]

/-- The fixed key namespace of the Record Store. -/
def storageKeyOf (key : String) : String := "script-image-generator:" ++ key

/-- saveData (src/lib/storage.ts): stringify and store under the namespaced
key. -/
def saveData (st : Storage) (key : String) (value : Json) : Storage :=
  setItem st (storageKeyOf key) value

/-- loadData (src/lib/storage.ts): read the namespaced key, returning null
when absent. -/
def loadData (st : Storage) (key : String) : Option Json :=
  getItem st (storageKeyOf key)

/-- saveScripts (src/lib/storage.ts). -/
def saveScripts (st : Storage) (scripts : List Script) : Storage :=
  saveData st "scripts" (Json.arr (scripts.map encodeScript))

/-- loadScripts (src/lib/storage.ts): parse the stored array, defaulting to
the empty collection. -/
def loadScripts (st : Storage) : List Script :=
  ((loadData st "scripts").bind (decodeArray decodeScript)).getD []

/-- saveCharacters (src/lib/storage.ts). -/
def saveCharacters (st : Storage) (characters : List Character) : Storage :=
  saveData st "characters" (Json.arr (characters.map encodeCharacter))

/-- loadCharacters (src/lib/storage.ts). -/
def loadCharacters (st : Storage) : List Character :=
  ((loadData st "characters").bind (decodeArray decodeCharacter)).getD []

/-- saveScenes (src/lib/storage.ts). -/
def saveScenes (st : Storage) (scenes : List Scene) : Storage :=
  saveData st "scenes" (Json.arr (scenes.map encodeScene))

/-- loadScenes (src/lib/storage.ts). -/
def loadScenes (st : Storage) : List Scene :=
  ((loadData st "scenes").bind (decodeArray decodeScene)).getD []

theorem loadScripts_saveScripts (st : Storage) (l : List Script) :
    loadScripts (saveScripts st l) = l := by
  simp only [loadScripts, saveScripts, loadData, saveData, getItem_setItem_self,
    Option.some_bind, decodeArray,
    decodeElems_map decodeScript encodeScript decodeScript_enc, Option.getD_some]

theorem loadCharacters_saveCharacters (st : Storage) (l : List Character) :
    loadCharacters (saveCharacters st l) = l := by
  simp only [loadCharacters, saveCharacters, loadData, saveData, getItem_setItem_self,
    Option.some_bind, decodeArray,
    decodeElems_map decodeCharacter encodeCharacter decodeCharacter_enc, Option.getD_some]

theorem loadScenes_saveScenes (st : Storage) (l : List Scene) :
    loadScenes (saveScenes st l) = l := by
  simp only [loadScenes, saveScenes, loadData, saveData, getItem_setItem_self,
    Option.some_bind, decodeArray,
    decodeElems_map decodeScene encodeScene decodeScene_enc, Option.getD_some]

theorem loadScripts_saveCharacters (st : Storage) (l : List Character) :
    loadScripts (saveCharacters st l) = loadScripts st := by
  simp only [loadScripts, saveCharacters, loadData, saveData, storageKeyOf]
  rw [getItem_setItem_ne _ _ _ _ (by decide)]

theorem loadScripts_saveScenes (st : Storage) (l : List Scene) :
    loadScripts (saveScenes st l) = loadScripts st := by
  simp only [loadScripts, saveScenes, loadData, saveData, storageKeyOf]
  rw [getItem_setItem_ne _ _ _ _ (by decide)]

theorem loadCharacters_saveScripts (st : Storage) (l : List Script) :
    loadCharacters (saveScripts st l) = loadCharacters st := by
  simp only [loadCharacters, saveScripts, loadData, saveData, storageKeyOf]
  rw [getItem_setItem_ne _ _ _ _ (by decide)]

theorem loadCharacters_saveScenes (st : Storage) (l : List Scene) :
    loadCharacters (saveScenes st l) = loadCharacters st := by
  simp only [loadCharacters, saveScenes, loadData, saveData, storageKeyOf]
  rw [getItem_setItem_ne _ _ _ _ (by decide)]

theorem loadScenes_saveScripts (st : Storage) (l : List Script) :
    loadScenes (saveScripts st l) = loadScenes st := by
  simp only [loadScenes, saveScripts, loadData, saveData, storageKeyOf]
  rw [getItem_setItem_ne _ _ _ _ (by decide)]

theorem loadScenes_saveCharacters (st : Storage) (l : List Character) :
    loadScenes (saveCharacters st l) = loadScenes st := by
  simp only [loadScenes, saveCharacters, loadData, saveData, storageKeyOf]
  rw [getItem_setItem_ne _ _ _ _ (by decide)]

/-- Claim C9: saving a record array to its collection and loading the
collection back returns an array equal to the saved one, for each of the
three collections of the Record Store (serialization round-trip law). -/
theorem claim_save_load_roundtrip (st : Storage) (scripts : List Script)
    (characters : List Character) (scenes : List Scene) :
    loadScripts (saveScripts st scripts) = scripts
    ∧ loadCharacters (saveCharacters st characters) = characters
    ∧ loadScenes (saveScenes st scenes) = scenes :=
  ⟨loadScripts_saveScripts st scripts,
   loadCharacters_saveCharacters st characters,
   loadScenes_saveScenes st scenes⟩

/-- deleteScript (src/lib/storage.ts): removes the Script record and cascades
the deletion to the Character and Scene collections filtered by scriptId. -/
def deleteScript (st : Storage) (id : String) : Storage :=
  let st1 := saveScripts st ((loadScripts st).filter (fun s => s.id != id))
  let st2 := saveCharacters st1 ((loadCharacters st1).filter (fun c => c.scriptId != id))
  saveScenes st2 ((loadScenes st2).filter (fun s => s.scriptId != id))

/-- The three collections as loaded after deleteScript. -/
theorem deleteScript_loads (st : Storage) (S : String) :
    loadScripts (deleteScript st S) = (loadScripts st).filter (fun s => s.id != S)
    ∧ loadCharacters (deleteScript st S)
        = (loadCharacters st).filter (fun c => c.scriptId != S)
    ∧ loadScenes (deleteScript st S)
        = (loadScenes st).filter (fun s => s.scriptId != S) := by
  unfold deleteScript
  refine ⟨?_, ?_, ?_⟩
  · rw [loadScripts_saveScenes, loadScripts_saveCharacters, loadScripts_saveScripts]
  · rw [loadCharacters_saveScenes, loadCharacters_saveCharacters,
      loadCharacters_saveScripts]
  · rw [loadScenes_saveScenes, loadScenes_saveCharacters, loadScenes_saveScripts]

/-- Claim C6: deleting the Script of id S removes the Script record, every
Character with scriptId equal to S and every Scene with scriptId equal to S,
while every Script, Character and Scene record whose scriptId (or id, for
Scripts) differs from S is still present, unchanged. -/
theorem claim_deleteScript_cascade (st : Storage) (S : String) :
    (∀ sc : Script, sc ∈ loadScripts (deleteScript st S)
        ↔ sc ∈ loadScripts st ∧ sc.id ≠ S)
    ∧ (∀ c : Character, c ∈ loadCharacters (deleteScript st S)
        ↔ c ∈ loadCharacters st ∧ c.scriptId ≠ S)
    ∧ (∀ s : Scene, s ∈ loadScenes (deleteScript st S)
        ↔ s ∈ loadScenes st ∧ s.scriptId ≠ S) := by
  obtain ⟨h1, h2, h3⟩ := deleteScript_loads st S
  refine ⟨fun sc => ?_, fun c => ?_, fun s => ?_⟩
  · rw [h1, List.mem_filter, bne_iff_ne]
  · rw [h2, List.mem_filter, bne_iff_ne]
  · rw [h3, List.mem_filter, bne_iff_ne]

/-- A concrete Character belonging to the script "s2". -/
def demoCharOther : Character :=
  { id := "c9", scriptId := "s2", name := "Bora", appearance := {},
    referenceImages := [], createdAt := "t0", updatedAt := "t0" }

/-- A concrete Character belonging to the script "s1". -/
def demoCharOwned : Character :=
  { id := "c8", scriptId := "s1", name := "Hana", appearance := {},
    referenceImages := [], createdAt := "t0", updatedAt := "t0" }

/-- A concrete stored state holding characters of two scripts. -/
def demoStorage : Storage :=
  saveCharacters (saveScenes (saveScripts [] []) []) [demoCharOwned, demoCharOther]

/-- Witness for claim C6 at a concrete stored state: after deleting script
"s1", the character of script "s2" is still stored and the character of
script "s1" is gone. -/
theorem claim_deleteScript_cascade_witness :
    demoCharOther ∈ loadCharacters (deleteScript demoStorage "s1")
    ∧ demoCharOwned ∉ loadCharacters (deleteScript demoStorage "s1") := by
  have h := claim_deleteScript_cascade demoStorage "s1"
  refine ⟨(h.2.1 demoCharOther).mpr ⟨by decide, by decide⟩, fun hmem => ?_⟩
  have h2 := (h.2.1 demoCharOwned).mp hmem
  exact absurd h2.2 (by decide)

/-- saveAnalysisResult (src/lib/storage.ts): drops the previously stored
Characters and Scenes of the given script and appends the freshly created
records after the records of the other scripts. -/
def saveAnalysisResult (st : Storage) (scriptId : String)
    (characters : List Character) (scenes : List Scene) : Storage :=
  let existingCharacters := (loadCharacters st).filter (fun c => c.scriptId != scriptId)
  let existingScenes := (loadScenes st).filter (fun s => s.scriptId != scriptId)
  let st1 := saveCharacters st (existingCharacters ++ characters)
  saveScenes st1 (existingScenes ++ scenes)

/-- Claim C10: saveAnalysisResult replaces all stored Characters and Scenes
of the given script with exactly the new records (the old records of that
script, including any reference-image lists they carried, are discarded),
keeps every Character and Scene of other scripts unchanged and in its
previous relative order with the new records appended after them, and leaves
the Script collection untouched. -/
theorem claim_saveAnalysisResult_frame (st : Storage) (S : String)
    (newCharacters : List Character) (newScenes : List Scene) :
    loadScripts (saveAnalysisResult st S newCharacters newScenes) = loadScripts st
    ∧ loadCharacters (saveAnalysisResult st S newCharacters newScenes)
        = (loadCharacters st).filter (fun c => c.scriptId != S) ++ newCharacters
    ∧ loadScenes (saveAnalysisResult st S newCharacters newScenes)
        = (loadScenes st).filter (fun s => s.scriptId != S) ++ newScenes
    ∧ (∀ c : Character, c ∈ loadCharacters (saveAnalysisResult st S newCharacters newScenes)
        ↔ (c ∈ loadCharacters st ∧ c.scriptId ≠ S) ∨ c ∈ newCharacters)
    ∧ (∀ s : Scene, s ∈ loadScenes (saveAnalysisResult st S newCharacters newScenes)
        ↔ (s ∈ loadScenes st ∧ s.scriptId ≠ S) ∨ s ∈ newScenes) := by
  have hchars : loadCharacters (saveAnalysisResult st S newCharacters newScenes)
      = (loadCharacters st).filter (fun c => c.scriptId != S) ++ newCharacters := by
    unfold saveAnalysisResult
    rw [loadCharacters_saveScenes, loadCharacters_saveCharacters]
  have hscenes : loadScenes (saveAnalysisResult st S newCharacters newScenes)
      = (loadScenes st).filter (fun s => s.scriptId != S) ++ newScenes := by
    unfold saveAnalysisResult
    rw [loadScenes_saveScenes]
  refine ⟨?_, hchars, hscenes, fun c => ?_, fun s => ?_⟩
  · unfold saveAnalysisResult
    rw [loadScripts_saveScenes, loadScripts_saveCharacters]
  · rw [hchars, List.mem_append, List.mem_filter, bne_iff_ne]
  · rw [hscenes, List.mem_append, List.mem_filter, bne_iff_ne]

/-- Witness for claim C10 at a concrete stored state: re-saving the analysis
of script "s1" discards its old character, keeps the character of script
"s2", and stores the new character of script "s1". -/
theorem claim_saveAnalysisResult_frame_witness :
    demoCharOther ∈ loadCharacters (saveAnalysisResult demoStorage "s1" [witnessChar2] [])
    ∧ witnessChar2 ∈ loadCharacters (saveAnalysisResult demoStorage "s1" [witnessChar2] [])
    ∧ demoCharOwned ∉ loadCharacters (saveAnalysisResult demoStorage "s1" [witnessChar2] []) := by
  have h := claim_saveAnalysisResult_frame demoStorage "s1" [witnessChar2] []
  refine ⟨(h.2.2.2.1 demoCharOther).mpr (Or.inl ⟨by decide, by decide⟩),
    (h.2.2.2.1 witnessChar2).mpr (Or.inr (by decide)), fun hmem => ?_⟩
  rcases (h.2.2.2.1 demoCharOwned).mp hmem with h2 | h2
  · exact absurd h2.2 (by decide)
  · exact absurd h2 (by decide)

/-! ## Analysis-result ingestion (src/pages/ScriptNew.tsx and
src/pages/ScriptDetail.tsx)

Both pages turn the structured analysis output into Character and Scene
records with the same logic. The external analysis call is modelled by its
outcome (a parsed AnalysisResult, or the error raised when no valid JSON is
recoverable); the uuid generator is modelled by lists of fresh identifiers. -/

/-- One character of the structured analysis output (src/types/index.ts,
AnalysisResult). -/
structure AnalysisCharacter where
  name : String
  appearance : Appearance
  defaultOutfit : Option String := none
deriving DecidableEq, Repr

/-- One scene of the structured analysis output. -/
structure AnalysisScene where
  sceneNumber : Int
  title : Option String := none
  location : Option String := none
  timeOfDay : Option String := none
  originalText : String
  visualDescription : String
  characterNames : List String
deriving DecidableEq, Repr

/-- The structured analysis output (transient, not persisted). -/
structure AnalysisResult where
  characters : List AnalysisCharacter
  scenes : List AnalysisScene
  styleGuide : Option String := none
deriving DecidableEq, Repr

/-- The name-to-id lookup of the ingestion,
`new Map(characters.map((c) => [c.name, c.id]))`. A JS Map built from an
entry list keeps, for a duplicated key, the value of the LAST entry, so the
lookup is modelled by searching the reversed character list. -/
def charNameToId (characters : List Character) (name : String) : Option String :=
  (characters.reverse.find? (fun c => c.name == name)).map Character.id

/-- The type-guard filter `.filter((id): id is string => !!id)` applied to
the looked-up ids: undefined entries and empty-string entries are dropped. -/
def truthyIds (ids : List (Option String)) : List String :=
  ids.filterMap (fun o => match o with
    | some i => if i = "" then none else some i
    | none => none)

/-- characterIds computation for one scene (identical in
ScriptNew.handleSubmit and ScriptDetail.handleReanalyze). -/
def resolveCharacterIds (characters : List Character) (names : List String) : List String :=
  truthyIds (names.map (charNameToId characters))

/-- The resolution as worded by the spec: a FIRST-match map from character
names to ids. -/
def resolveCharacterIdsFirstMatch (characters : List Character)
    (names : List String) : List String :=
  truthyIds (names.map (fun name =>
    (characters.find? (fun c => c.name == name)).map Character.id))

/-- A concrete Character named Anna with id "id-a". -/
def dupAnnaA : Character :=
  { id := "id-a", scriptId := "s1", name := "Anna", appearance := {},
    referenceImages := [], createdAt := "t0", updatedAt := "t0" }

/-- A concrete Character also named Anna, created after the first, with id
"id-b". -/
def dupAnnaB : Character :=
  { id := "id-b", scriptId := "s1", name := "Anna", appearance := {},
    referenceImages := [], createdAt := "t0", updatedAt := "t0" }

/-- Claim C7, counterexample: the linkage is not a first-match map. With two
created Characters both named Anna, the code resolves the scene name Anna to
the id of the LAST matching Character (a JS Map keeps the last entry for a
duplicated key), while a first-match map would resolve it to the first. -/
theorem resolveCharacterIds_not_firstMatch_cex :
    resolveCharacterIds [dupAnnaA, dupAnnaB] ["Anna"] = ["id-b"]
    ∧ resolveCharacterIdsFirstMatch [dupAnnaA, dupAnnaB] ["Anna"] = ["id-a"]
    ∧ resolveCharacterIds [dupAnnaA, dupAnnaB] ["Anna"]
        ≠ resolveCharacterIdsFirstMatch [dupAnnaA, dupAnnaB] ["Anna"] := by
  refine ⟨by decide, by decide, by decide⟩

/-- Splitting a list at the first entry satisfying a find? predicate. -/
theorem find?_decomp {α : Type} (p : α → Bool) (l : List α) (a : α)
    (h : l.find? p = some a) :
    ∃ l₁ l₂, l = l₁ ++ a :: l₂ ∧ ∀ b ∈ l₁, ¬ p b := by
  induction l with
  | nil => cases h
  | cons x rest ih =>
      by_cases hx : p x
      · rw [List.find?_cons_of_pos _ hx] at h
        injection h with h2
        exact ⟨[], rest, by rw [h2]; rfl, by simp⟩
      · rw [List.find?_cons_of_neg _ hx] at h
        obtain ⟨l₁, l₂, heq, hall⟩ := ih h
        refine ⟨x :: l₁, l₂, by rw [heq, List.cons_append], ?_⟩
        intro b hb
        rcases List.mem_cons.mp hb with h2 | h2
        · rw [h2]
          exact hx
        · exact hall b h2

/-- The truthiness filter over mapped lookups reduces to filterMap when no
lookup can return an empty id. -/
theorem truthyIds_map (f : String → Option String) (names : List String)
    (hf : ∀ n, f n ≠ some "") :
    truthyIds (names.map f) = names.filterMap f := by
  induction names with
  | nil => rfl
  | cons n rest ih =>
      rw [List.map_cons]
      unfold truthyIds
      unfold truthyIds at ih
      rw [List.filterMap_cons, List.filterMap_cons]
      cases hfn : f n with
      | none =>
          simp only [hfn]
          exact ih
      | some i =>
          have hi : i ≠ "" := by
            intro hc
            exact hf n (by rw [hfn, hc])
          simp only [hfn, if_neg hi]
          rw [ih]

/-- A looked-up id belongs to a character of the list. -/
theorem charNameToId_some {characters : List Character} {n i : String}
    (h : charNameToId characters n = some i) :
    ∃ c ∈ characters, c.name = n ∧ c.id = i := by
  unfold charNameToId at h
  cases hfind : characters.reverse.find? (fun c => c.name == n) with
  | none => rw [hfind] at h; cases h
  | some c =>
      rw [hfind] at h
      injection h with h2
      have hmem : c ∈ characters := List.mem_reverse.mp (List.mem_of_find?_eq_some hfind)
      have hname : c.name = n := by
        have := List.find?_some hfind
        exact beq_iff_eq.mp this
      exact ⟨c, hmem, hname, h2⟩

/-- Claim C7 (amended): each new Scene's characterIds is computed from its
characterNames by exact, case-sensitive string match against the created
Characters, every unmatched name is silently dropped, and a matched name
yields the id of the LAST Character with that name (later duplicate names
shadow earlier ones in the name-to-id map). -/
theorem claim_resolveCharacterIds (characters : List Character) (names : List String)
    (hids : ∀ c ∈ characters, c.id ≠ "") :
    resolveCharacterIds characters names = names.filterMap (charNameToId characters)
    ∧ (∀ n, charNameToId characters n = none ↔ ∀ c ∈ characters, c.name ≠ n)
    ∧ (∀ n i, charNameToId characters n = some i →
        ∃ l₁ c l₂, characters = l₁ ++ c :: l₂ ∧ c.name = n ∧ c.id = i
          ∧ ∀ c2 ∈ l₂, c2.name ≠ n) := by
  refine ⟨?_, fun n => ?_, fun n i h => ?_⟩
  · apply truthyIds_map
    intro n hc
    obtain ⟨c, hmem, _, hid⟩ := charNameToId_some hc
    exact hids c hmem hid
  · constructor
    · intro h c hmem hname
      unfold charNameToId at h
      cases hfind : characters.reverse.find? (fun c => c.name == n) with
      | some c2 => rw [hfind] at h; cases h
      | none =>
          have h2 := List.find?_eq_none.mp hfind c (List.mem_reverse.mpr hmem)
          exact h2 (by rw [hname]; exact beq_self_eq_true n)
    · intro hall
      unfold charNameToId
      rw [List.find?_eq_none.mpr ?_]
      · rfl
      · intro c hmem hbeq
        exact hall c (List.mem_reverse.mp hmem) (beq_iff_eq.mp hbeq)
  · unfold charNameToId at h
    cases hfind : characters.reverse.find? (fun c => c.name == n) with
    | none => rw [hfind] at h; cases h
    | some c =>
        rw [hfind] at h
        injection h with h2
        obtain ⟨l₁, l₂, heq, hall⟩ := find?_decomp _ _ _ hfind
        have hp := List.find?_some hfind
        have hname : c.name = n := by simpa using hp
        refine ⟨l₂.reverse, c, l₁.reverse, ?_, hname, h2, ?_⟩
        · have := congrArg List.reverse heq
          rw [List.reverse_reverse] at this
          rw [this]
          simp [List.reverse_append]
        · intro c2 hc2 hcname
          exact hall c2 (List.mem_reverse.mp hc2)
            (by rw [hcname]; exact beq_self_eq_true n)

/-- A concrete Character named Anna. -/
def annaChar : Character :=
  { id := "id-anna", scriptId := "s1", name := "Anna", appearance := {},
    referenceImages := [], createdAt := "t0", updatedAt := "t0" }

/-- Witness for the amended claim C7 at concrete inputs: a scene listing
exactly the name Anna when a Character Anna was created yields exactly that
id, and a scene listing the name Bob when no Character Bob was created yields
an empty characterIds. -/
theorem claim_resolveCharacterIds_witness :
    resolveCharacterIds [annaChar] ["Anna"] = ["id-anna"]
    ∧ resolveCharacterIds [annaChar] ["Bob"] = [] := by
  have h1 := claim_resolveCharacterIds [annaChar] ["Anna"] (by decide)
  have h2 := claim_resolveCharacterIds [annaChar] ["Bob"] (by decide)
  refine ⟨?_, ?_⟩
  · rw [h1.1]
    decide
  · rw [h2.1]
    decide

/-- updateScript (src/lib/storage.ts): merges a partial update into the
first record with the given id and refreshes updatedAt; a no-op with no
error when the id is absent. The partial update is passed as a record
transformer. -/
def updateFirstScript : List Script → String → (Script → Script) → String → List Script
  | [], _, _, _ => []
  | s :: rest, id, upd, now =>
      if s.id = id then { upd s with updatedAt := now } :: rest
      else s :: updateFirstScript rest id upd now

/-- updateScript at the Storage level: loads the collection, patches the
matching record if present and saves the collection back. -/
def updateScript (st : Storage) (id : String) (upd : Script → Script)
    (now : String) : Storage :=
  if (loadScripts st).any (fun s => s.id == id) then
    saveScripts st (updateFirstScript (loadScripts st) id upd now)
  else st

/-- addScript (src/lib/storage.ts): appends the new record. -/
def addScript (st : Storage) (script : Script) : Storage :=
  saveScripts st (loadScripts st ++ [script])

/-- getScript (src/lib/storage.ts): the first record with the given id. -/
def getScript (st : Storage) (id : String) : Option Script :=
  (loadScripts st).find? (fun s => s.id == id)

/-- Character records built from an analysis result
(ScriptNew.handleSubmit and ScriptDetail.handleReanalyze): fresh uuid ids
are supplied as a list. -/
def buildCharactersFromAnalysis (scriptId : String) (ids : List String)
    (result : AnalysisResult) (now : String) : List Character :=
  (result.characters.zip ids).map fun ci =>
    { id := ci.2, scriptId := scriptId, name := ci.1.name,
      appearance := ci.1.appearance, defaultOutfit := ci.1.defaultOutfit,
      referenceImages := [], createdAt := now, updatedAt := now }

/-- Scene records built from an analysis result, with characterIds resolved
against the freshly created Characters. -/
def buildScenesFromAnalysis (scriptId : String) (ids : List String)
    (characters : List Character) (result : AnalysisResult) (now : String) : List Scene :=
  (result.scenes.zip ids).map fun si =>
    { id := si.2, scriptId := scriptId, sceneNumber := si.1.sceneNumber,
      title := si.1.title, location := si.1.location, timeOfDay := si.1.timeOfDay,
      originalText := si.1.originalText,
      visualDescription := some si.1.visualDescription,
      characterIds := resolveCharacterIds characters si.1.characterNames,
      generatedImages := [], status := SceneStatus.pending,
      createdAt := now, updatedAt := now }

/-- First analysis of a new Script (ScriptNew.tsx, handleSubmit): the Script
record is created with status analyzing, then the analysis outcome either
seeds the collections and sets status ready, or the raised error is surfaced
and the status is set back to draft (the not-yet-analyzed state). The
external call is modelled by its outcome. -/
def handleSubmitNew (st : Storage) (scriptId title rawContent : String)
    (genre : Option String) (outcome : Except String AnalysisResult)
    (charIds sceneIds : List String) (now : String) : Storage × Option String :=
  let script : Script :=
    { id := scriptId, title := title, rawContent := rawContent, genre := genre,
      status := ScriptStatus.analyzing, createdAt := now, updatedAt := now }
  let st1 := addScript st script
  match outcome with
  | Except.error e =>
      (updateScript st1 scriptId (fun s => { s with status := ScriptStatus.draft }) now,
       some e)
  | Except.ok result =>
      let characters := buildCharactersFromAnalysis scriptId charIds result now
      let scenes := buildScenesFromAnalysis scriptId sceneIds characters result now
      let st2 := saveAnalysisResult st1 scriptId characters scenes
      let st3 := updateScript st2 scriptId
        (fun s => { s with status := ScriptStatus.ready,
                           styleGuide := result.styleGuide }) now
      (st3, none)

/-- Re-analysis of an existing Script (ScriptDetail.tsx, handleReanalyze):
on a raised analysis error nothing is written, the error is surfaced, and
the Script keeps its pre-analysis status; on success the collections are
re-seeded and the status becomes ready. -/
def handleReanalyze (st : Storage) (script : Script)
    (outcome : Except String AnalysisResult) (charIds sceneIds : List String)
    (now : String) : Storage × Option String :=
  match outcome with
  | Except.error e => (st, some e)
  | Except.ok result =>
      let newCharacters := buildCharactersFromAnalysis script.id charIds result now
      let newScenes := buildScenesFromAnalysis script.id sceneIds newCharacters result now
      let st1 := saveAnalysisResult st script.id newCharacters newScenes
      (updateScript st1 script.id
        (fun s => { s with status := ScriptStatus.ready,
                           styleGuide := result.styleGuide }) now, none)

/-- Patching the appended fresh record when no earlier record has its id. -/
theorem updateFirstScript_append_fresh (l : List Script) (script : Script)
    (id : String) (upd : Script → Script) (now : String)
    (hl : ∀ s ∈ l, s.id ≠ id) (hs : script.id = id) :
    updateFirstScript (l ++ [script]) id upd now
      = l ++ [{ upd script with updatedAt := now }] := by
  induction l with
  | nil => simp [updateFirstScript, hs]
  | cons a rest ih =>
      have ha : a.id ≠ id := hl a (List.mem_cons_self _ _)
      rw [List.cons_append, updateFirstScript, if_neg ha,
        ih (fun s hmem => hl s (List.mem_cons_of_mem _ hmem)), List.cons_append]

/-- find? hits an appended last element when nothing before it matches. -/
theorem find?_append_last {α : Type} (p : α → Bool) (l : List α) (x : α)
    (hl : ∀ a ∈ l, ¬ p a) (hx : p x) : (l ++ [x]).find? p = some x := by
  induction l with
  | nil => simp [List.find?_cons_of_pos _ hx]
  | cons a rest ih =>
      rw [List.cons_append, List.find?_cons_of_neg _ (hl a (List.mem_cons_self _ _))]
      exact ih (fun b hmem => hl b (List.mem_cons_of_mem _ hmem))

/-- Claim C8: when the analysis outcome is a parse error, the error is
surfaced to the caller and the Script is not left in the in-between
analyzing state: the first analysis of a new Script (created fresh with
status analyzing) ends with the Script stored with status draft, the
not-yet-analyzed state, and a re-analysis of an existing Script leaves the
whole stored state unchanged, so the status keeps its pre-analysis value. -/
theorem claim_parse_error_rollback (st : Storage) (scriptId title rawContent : String)
    (genre : Option String) (e : String) (charIds sceneIds : List String)
    (now : String) (script : Script)
    (hfresh : ∀ s ∈ loadScripts st, s.id ≠ scriptId) :
    (handleSubmitNew st scriptId title rawContent genre (Except.error e)
        charIds sceneIds now).2 = some e
    ∧ getScript (handleSubmitNew st scriptId title rawContent genre (Except.error e)
        charIds sceneIds now).1 scriptId
        = some { id := scriptId, title := title, rawContent := rawContent,
                 genre := genre, status := ScriptStatus.draft,
                 createdAt := now, updatedAt := now }
    ∧ handleReanalyze st script (Except.error e) charIds sceneIds now = (st, some e) := by
  refine ⟨rfl, ?_, rfl⟩
  unfold handleSubmitNew
  simp only []
  set script0 : Script :=
    { id := scriptId, title := title, rawContent := rawContent, genre := genre,
      status := ScriptStatus.analyzing, createdAt := now, updatedAt := now } with hscript0
  have hload1 : loadScripts (addScript st script0) = loadScripts st ++ [script0] := by
    unfold addScript
    exact loadScripts_saveScripts st _
  have hany : (loadScripts (addScript st script0)).any (fun s => s.id == scriptId) = true := by
    rw [hload1]
    refine List.any_eq_true.mpr ⟨script0, List.mem_append_right _ (List.mem_cons_self _ _), ?_⟩
    exact beq_self_eq_true scriptId
  unfold getScript updateScript
  rw [if_pos hany, loadScripts_saveScripts, hload1,
    updateFirstScript_append_fresh _ _ _ _ _ hfresh rfl,
    find?_append_last _ _ _ ?_ ?_]
  · intro s hmem hbeq
    exact hfresh s hmem (beq_iff_eq.mp hbeq)
  · exact beq_self_eq_true scriptId

/-- Witness for claim C8 at a concrete input: a failing first analysis on an
empty store surfaces the error and leaves the Script in status draft, and a
failing re-analysis leaves the store untouched. -/
theorem claim_parse_error_rollback_witness :
    (handleSubmitNew [] "s1" "My script" "INT. CAFE" none
        (Except.error "parse error") [] [] "t0").2 = some "parse error"
    ∧ getScript (handleSubmitNew [] "s1" "My script" "INT. CAFE" none
        (Except.error "parse error") [] [] "t0").1 "s1"
        = some { id := "s1", title := "My script", rawContent := "INT. CAFE",
                 genre := none, status := ScriptStatus.draft,
                 createdAt := "t0", updatedAt := "t0" } := by
  have h := claim_parse_error_rollback [] "s1" "My script" "INT. CAFE" none
    "parse error" [] [] "t0"
    { id := "sX", title := "other", rawContent := "raw",
      status := ScriptStatus.ready, createdAt := "t0", updatedAt := "t0" }
    (by decide)
  exact ⟨h.1, h.2.1⟩

/-! ## Batch Generation Orchestrator for scenes (the Generate page) -/

/-- One batch generation run for a Scene (Generate page, handleGenerateOne).
The record first gets status generating, persisted immediately; then the
fixed number of sequential generation calls are issued (default 3), each
attempt yielding the identifier of the stored image on success, or nothing
on a caught per-attempt failure after which the loop continues. The attempt
outcomes are passed as a list in attempt order. After the loop, with at
least one success the new identifiers are appended to generatedImages of the
freshly re-read record (single-threaded, so equal to the pre-state images),
the first new image becomes the selected one overwriting any prior
selection, and the status becomes completed; with zero successes the
batch-level error is raised, caught and surfaced, and the status becomes
failed. -/
def handleGenerateOne (scene : Scene) (attempts : List (Option String))
    (now : String) : Scene × Option String :=
  let generatingScene := { scene with status := SceneStatus.generating, updatedAt := now }
  match attempts.filterMap id with
  | [] =>
      ({ generatingScene with status := SceneStatus.failed, updatedAt := now },
       some "이미지 생성에 모두 실패했습니다.")
  | first :: rest =>
      ({ generatingScene with
          generatedImages := generatingScene.generatedImages ++ (first :: rest),
          selectedImage := some first,
          status := SceneStatus.completed,
          updatedAt := now }, none)

/-- Claim C1: for every scene batch generation run, whatever the number of
attempts, if at least one attempt succeeds the run appends exactly the
successful image identifiers to generatedImages in attempt order, sets
selectedImage to the first newly produced image (overwriting any prior
selection) and sets the status to completed with no error; if zero attempts
succeed the status becomes failed and the batch error is surfaced to the
caller. -/
theorem claim_batchGeneration (scene : Scene) (attempts : List (Option String))
    (now : String) :
    (∀ first rest, attempts.filterMap id = first :: rest →
        (handleGenerateOne scene attempts now).1.generatedImages
            = scene.generatedImages ++ (first :: rest)
        ∧ (handleGenerateOne scene attempts now).1.selectedImage = some first
        ∧ (handleGenerateOne scene attempts now).1.status = SceneStatus.completed
        ∧ (handleGenerateOne scene attempts now).2 = none)
    ∧ (attempts.filterMap id = [] →
        (handleGenerateOne scene attempts now).1.status = SceneStatus.failed
        ∧ (handleGenerateOne scene attempts now).2
            = some "이미지 생성에 모두 실패했습니다.") := by
  constructor
  · intro first rest h
    unfold handleGenerateOne
    rw [h]
    exact ⟨rfl, rfl, rfl, rfl⟩
  · intro h
    unfold handleGenerateOne
    rw [h]
    exact ⟨rfl, rfl⟩

/-- A concrete pending Scene with no generated images. -/
def witnessScene : Scene :=
  { id := "sc1", scriptId := "s1", sceneNumber := 1,
    originalText := "Anna drinks coffee.", characterIds := ["c1"],
    generatedImages := [], status := SceneStatus.pending,
    createdAt := "t0", updatedAt := "t0" }

/-- Witness for claim C1 at a concrete input: with attempts 1 and 3
succeeding and attempt 2 failing, the Scene ends completed with exactly the
two images of attempts 1 and 3 appended in that order, the first selected. -/
theorem claim_batchGeneration_witness :
    (handleGenerateOne witnessScene [some "img1", none, some "img3"] "t1").1.generatedImages
        = ["img1", "img3"]
    ∧ (handleGenerateOne witnessScene [some "img1", none, some "img3"] "t1").1.selectedImage
        = some "img1"
    ∧ (handleGenerateOne witnessScene [some "img1", none, some "img3"] "t1").1.status
        = SceneStatus.completed := by
  have h := (claim_batchGeneration witnessScene [some "img1", none, some "img3"] "t1").1
    "img1" ["img3"] (by decide)
  refine ⟨?_, h.2.1, h.2.2.1⟩
  rw [h.1]
  decide

end ScriptImage
